import Mathlib

/-!
Shallow embedding of the PIXIE image tool (Rust sources under `src/`):
error model and configuration (`lib.rs`), compressor (`compressor.rs`),
loader (`loader.rs`), metadata handling (`metadata.rs`), batch driver
(`batch.rs`), dimension validation (`utils/mod.rs`), and — where the
repository references code absent from the sources (`resizer.rs`,
`ProcessConfig::validate`) — definitions modelled from the specification.

Machine integers are embedded as `Nat` with explicit wrap-around
(`% 2^64`) where Rust release-mode overflow matters; `f32`/`f64`
arithmetic is embedded in exact rational arithmetic `ℚ` (all claims are
settled at values where the float computation is exact or where the
divergence dwarfs any rounding); filesystem and codec effects are passed
in explicitly as environment records.
-/

namespace Pixie

/-- The error enum of `lib.rs` (`ImageToolError`): constructors `ioError`,
`imageError`, `invalidParameter`, `unsupportedFormat`, `processingError`
embed the variants `Io`, `Image`, `InvalidParameter`, `UnsupportedFormat`,
`ProcessingError`; each carries its message text. -/
inductive ImageToolError where
  | ioError (msg : String)
  | imageError (msg : String)
  | invalidParameter (msg : String)
  | unsupportedFormat (msg : String)
  | processingError (msg : String)
deriving DecidableEq, Repr

/-- The resize-filter enum of `lib.rs` (`ResizeAlgorithm`). -/
inductive ResizeAlgorithm where
  | nearest
  | bilinear
  | bicubic
  | lanczos3
deriving DecidableEq, Repr

/-- `ProcessConfig` from `lib.rs`: `width`/`height` are `u32`, `scale` is an
`f32` embedded as `ℚ`, `quality` a `u8`. -/
structure ProcessConfig where
  width : Nat
  height : Nat
  scale : ℚ
  quality : Nat
  keep_aspect : Bool
  strip_metadata : Bool
  algorithm : ResizeAlgorithm
deriving DecidableEq, Repr

/-- `ProcessConfig::default` from `lib.rs`. -/
def ProcessConfig.default : ProcessConfig :=
  { width := 0, height := 0, scale := 0, quality := 85,
    keep_aspect := true, strip_metadata := false,
    algorithm := ResizeAlgorithm.lanczos3 }

/-- `validate_dimensions` from `utils/mod.rs`: rejects a dimension above
100000, then rejects both dimensions zero. -/
def validate_dimensions (width height : Nat) : Except ImageToolError Unit :=
  if 100000 < width ∨ 100000 < height then
    .error (.invalidParameter ("Dimensions too large (max 100,000 pixels)"))
  else if width = 0 ∧ height = 0 then
    .error (.invalidParameter ("At least one dimension must be specified"))
  else
    .ok ()

/-- `ImageCompressor` from `compressor.rs` (its one field, the `u8` quality). -/
structure ImageCompressor where
  quality : Nat
deriving DecidableEq, Repr

/-- `ImageCompressor::new` from `compressor.rs`: `quality.clamp(1, 100)`
(Rust `clamp(lo, hi)` on an in-range-of-`u8` value). -/
def ImageCompressor.new (quality : Nat) : ImageCompressor :=
  { quality := min (max quality 1) 100 }

/-- Rust release-mode `u64` subtraction `a - b`: wraps modulo `2^64`.
Inputs are `u64` values, i.e. below `2^64`. -/
def u64Sub (a b : Nat) : Nat :=
  (a + 2 ^ 64 - b % 2 ^ 64) % 2 ^ 64

/-- `ImageCompressor::calculate_savings` from `compressor.rs`: guards
`original_size == 0`, then computes
`(original_size - compressed_size) as f64 / original_size as f64 * 100.0`
— a `u64` subtraction performed before the float cast, hence wrapping in
release mode — and finally `savings.max(0.0)`. -/
def ImageCompressor.calculate_savings (_c : ImageCompressor)
    (original_size compressed_size : Nat) : ℚ :=
  if original_size = 0 then 0
  else max ((u64Sub original_size compressed_size : ℚ) / (original_size : ℚ) * 100) 0

/-- A decoded raster: width, height, and a pixel payload of abstract type
`α` (the pixel buffer of `DynamicImage` is opaque to the geometry logic). -/
structure Raster (α : Type) where
  width : Nat
  height : Nat
  pixels : α
deriving DecidableEq, Repr

/-- `ResizeMode` from the (absent) `resizer.rs`, as used by `lib.rs`:
`Absolute(width, height) | Scale(factor)`; the `f32` factor is embedded
as `ℚ`. -/
inductive ResizeMode where
  | Absolute (width height : Nat)
  | Scale (factor : ℚ)
deriving DecidableEq, Repr

/-- Round a nonnegative rational to the nearest natural (the spec's
`round(...)` on dimension arithmetic). -/
def roundNat (q : ℚ) : Nat :=
  (round q).toNat

/-- Modelled from the spec: `resizer.rs` is declared by `lib.rs`
(`pub mod resizer;`) but absent from the sources. Target-geometry rules of
§4.3: `Scale(factor)` rounds both scaled dimensions; `Absolute(w,h)` with
`keep_aspect` derives a missing dimension from the source aspect ratio
(`other = round(src_dimension * (given/src_given))`) or, with both given,
scales by `min(w/src_w, h/src_h)` (fit-inside); without `keep_aspect` it
returns `(w, h)` exactly. -/
def compute_target_dimensions (srcW srcH : Nat) (mode : ResizeMode)
    (keepAspect : Bool) : Nat × Nat :=
  match mode with
  | .Scale factor => (roundNat ((srcW : ℚ) * factor), roundNat ((srcH : ℚ) * factor))
  | .Absolute w h =>
    if keepAspect = false then (w, h)
    else if h = 0 then (w, roundNat ((srcH : ℚ) * ((w : ℚ) / (srcW : ℚ))))
    else if w = 0 then (roundNat ((srcW : ℚ) * ((h : ℚ) / (srcH : ℚ))), h)
    else
      let factor : ℚ := min ((w : ℚ) / (srcW : ℚ)) ((h : ℚ) / (srcH : ℚ))
      (roundNat ((srcW : ℚ) * factor), roundNat ((srcH : ℚ) * factor))

/-- Modelled from the spec: `ImageResizer::resize` of the absent
`resizer.rs`, per §4.3. Computes the target geometry, fails with
`InvalidParameter` when a target dimension rounds to zero, returns the
raster unchanged (no resample) when the target equals the source, and
otherwise applies the opaque resample capability `resample` (parameterized
by the chosen filter and the target grid). -/
def ImageResizer.resize {α : Type} (resample : ResizeAlgorithm → Nat → Nat → α → α)
    (algorithm : ResizeAlgorithm) (keepAspect : Bool)
    (r : Raster α) (mode : ResizeMode) : Except ImageToolError (Raster α) :=
  let t := compute_target_dimensions r.width r.height mode keepAspect
  if t.1 = 0 ∨ t.2 = 0 then
    .error (.invalidParameter ("Resize target has a zero dimension"))
  else if t.1 = r.width ∧ t.2 = r.height then
    .ok r
  else
    .ok { width := t.1, height := t.2, pixels := resample algorithm t.1 t.2 r.pixels }

/-- Filesystem/codec effects observed by `ImageLoader::load` (`loader.rs`):
whether the path exists, the result of `ImageReader::open` plus
`with_guessed_format` (an `io::Error` on failure), and the result of
`decode` (an `image::ImageError` message on failure, the raster on
success). -/
structure LoadEnv (α : Type) where
  pathExists : Bool
  openResult : Except String Unit
  decodeResult : Except String (Raster α)

/-- `ImageLoader::load` from `loader.rs`: rejects a non-existent path with
`InvalidParameter`, maps an open/guess failure through `?` into the `Io`
variant, maps a decode failure into `ProcessingError`, and on success
returns the decoded raster (whose width, height and color model it
logs). -/
def ImageLoader.load {α : Type} (env : LoadEnv α) (path : String) :
    Except ImageToolError (Raster α) :=
  if env.pathExists = false then
    .error (.invalidParameter ("File does not exist: " ++ path))
  else
    match env.openResult with
    | .error e => .error (.ioError e)
    | .ok _ =>
      match env.decodeResult with
      | .error e => .error (.processingError ("Failed to decode image: " ++ e))
      | .ok img => .ok img

/-- Outcome of `exif::Reader::read_from_container` in
`MetadataStripper::read_metadata` (`metadata.rs`): EXIF data found
(payload of abstract type `ε`), the `exif::Error::NotFound` case, or any
other (malformed-container) error with its message. -/
inductive ExifReadOutcome (ε : Type) where
  | found (exifData : ε)
  | notFound
  | malformed (msg : String)
deriving DecidableEq, Repr

/-- Filesystem/parser effects observed by `read_metadata`: the result of
`File::open` and the EXIF reader's outcome on the opened container. -/
structure MetadataEnv (ε : Type) where
  openResult : Except String Unit
  outcome : ExifReadOutcome ε

/-- `MetadataStripper::read_metadata` from `metadata.rs`: `File::open`
failure propagates as `Io` through `?`; a found container yields
`Ok(Some(exif))`; `exif::Error::NotFound` yields `Ok(None)`; any other
EXIF error yields `Err(ProcessingError("EXIF read error: ..."))`. -/
def MetadataStripper.read_metadata {ε : Type} (env : MetadataEnv ε) :
    Except ImageToolError (Option ε) :=
  match env.openResult with
  | .error e => .error (.ioError e)
  | .ok _ =>
    match env.outcome with
    | .found d => .ok (some d)
    | .notFound => .ok none
    | .malformed e => .error (.processingError ("EXIF read error: " ++ e))

/-- True exactly on a metadata-read failure: among `read_metadata`'s
results, the `ProcessingError` variant is the one it raises for a
malformed EXIF container (the spec's `MetadataReadError`). -/
def isExifReadError {ε : Type} (r : Except ImageToolError (Option ε)) : Bool :=
  match r with
  | .error (.processingError _) => true
  | _ => false

/-- True exactly on the malformed-container outcome. -/
def ExifReadOutcome.isMalformed {ε : Type} (o : ExifReadOutcome ε) : Bool :=
  match o with
  | .malformed _ => true
  | _ => false

/-- `MetadataStripper::strip_metadata` from `metadata.rs`: the body only
logs and returns `Ok(())`, leaving the `&mut DynamicImage` untouched;
embedded state-passing style, returning the (unchanged) image. -/
def MetadataStripper.strip_metadata {α : Type} (image : Raster α) :
    Except ImageToolError (Raster α) :=
  .ok image

/-- `MetadataStripper::strip_metadata_from_bytes` from `metadata.rs`:
returns `Ok(data.to_vec())`, a byte-identical copy of the input. -/
def MetadataStripper.strip_metadata_from_bytes (data : List Nat) :
    Except ImageToolError (List Nat) :=
  .ok data

/-- Effects observed by one `ImageProcessor::process` run (`lib.rs`): the
loader's environment, the opaque resample capability, and the outcome of
`ImageCompressor::save` on the final raster. -/
structure ProcessEnv (α : Type) where
  loadEnv : LoadEnv α
  resample : ResizeAlgorithm → Nat → Nat → α → α
  saveResult : Except ImageToolError Unit

/-- `ImageProcessor::process` from `lib.rs`: load, then strip metadata when
`strip_metadata` is set, then — when any of width/height/scale is nonzero —
resize with `Scale(scale)` if `scale > 0` else `Absolute(width, height)`,
then construct the compressor from the configured quality and save.
(`lib.rs` treats the resizer call as infallible; the spec-modelled resizer
is fallible on degenerate targets and is bound fallibly here.) -/
def ImageProcessor.process {α : Type} (config : ProcessConfig)
    (env : ProcessEnv α) (inputPath : String) : Except ImageToolError Unit := do
  let image ← ImageLoader.load env.loadEnv inputPath
  let image ←
    if config.strip_metadata then MetadataStripper.strip_metadata image
    else pure image
  let _image ←
    if 0 < config.width ∨ 0 < config.height ∨ 0 < config.scale then
      let mode :=
        if 0 < config.scale then ResizeMode.Scale config.scale
        else ResizeMode.Absolute config.width config.height
      ImageResizer.resize env.resample config.algorithm config.keep_aspect image mode
    else pure image
  let _compressor := ImageCompressor.new config.quality
  env.saveResult

/-- One directory entry as seen by the `walkdir` traversal in
`collect_image_paths` (`batch.rs`): its path, its depth below the input
directory (0 = the directory itself), whether it is a regular file, and
its extension (`None` when the name has none). -/
structure DirEntry where
  path : String
  depth : Nat
  isFile : Bool
  ext : Option String
deriving DecidableEq, Repr

/-- The supported-extension array of `collect_image_paths` (`batch.rs`). -/
def image_extensions : List String :=
  ["jpg", "jpeg", "png", "gif", "bmp", "tiff", "tif", "webp"]

/-- Rust's `str::to_lowercase` as used on extensions: character-wise
lowering (it agrees with Unicode lowering on the ASCII extension set the
filter compares against). -/
def lowercaseStr (s : String) : String :=
  String.mk (s.data.map Char.toLower)

/-- The entry filter of `collect_image_paths`: a regular file whose
extension, lower-cased, is in the supported set (`unwrap_or(false)` when
there is no extension). -/
def entryIsSupportedImage (e : DirEntry) : Bool :=
  e.isFile && (match e.ext with
    | some x => image_extensions.contains (lowercaseStr x)
    | none => false)

/-- `BatchProcessor::collect_image_paths` from `batch.rs`. The walker's
raw stream is the `entries` list (an `Err` item is a traversal error,
dropped by `filter_map(entry.ok())`); `max_depth(1)` in the non-recursive
case keeps only entries of depth ≤ 1. The source wraps the resulting
`Vec` in `Ok` and has no error path, so the embedding returns the list
directly. -/
def collect_image_paths (entries : List (Except String DirEntry))
    (recursive : Bool) : List String :=
  let walked :=
    if recursive then entries
    else entries.filter (fun it =>
      match it with
      | .ok e => decide (e.depth ≤ 1)
      | .error _ => true)
  ((walked.filterMap (fun it =>
      match it with
      | .ok e => some e
      | .error _ => none)).filter entryIsSupportedImage).map (fun e => e.path)

/-- Effects observed by one `BatchProcessor::process_directory` run
(`batch.rs`): the outcome of `rayon::ThreadPoolBuilder::build_global`
(consulted only when a nonzero thread count is configured), the walker's
entry stream, the outcome of `fs::create_dir_all(output_dir)`, and the
per-file behavior of `process_single_image` — `Path::file_name()` of an
input path and the result of `ImageProcessor::process` on it. -/
structure BatchEnv where
  threadPoolOk : Bool
  threadPoolErr : String
  entries : List (Except String DirEntry)
  createDirOk : Bool
  createDirErr : String
  fileName : String → Option String
  fileOutcome : String → Except ImageToolError Unit

/-- `BatchProcessor::process_single_image` from `batch.rs`: a path with no
file name is `InvalidParameter`; otherwise the single-image pipeline runs
and a success counts as 1. -/
def BatchProcessor.process_single_image (env : BatchEnv) (inputPath : String) :
    Except ImageToolError Nat :=
  match env.fileName inputPath with
  | none => .error (.invalidParameter ("Invalid file name: " ++ inputPath))
  | some _ =>
    match env.fileOutcome inputPath with
    | .error e => .error e
    | .ok _ => .ok 1

/-- `BatchProcessor::process_directory` from `batch.rs`, in source order:
build the global rayon pool when `max_threads > 0` (failure aborts with
`ProcessingError`), collect image paths, return `Ok(0)` on an empty
collection, create the output directory tree (failure aborts through `?`
as `Io`), then map `process_single_image` over the paths with each
per-file error replaced by 0 (`unwrap_or_else`, after a `log::warn`), and
sum the contributions. -/
def BatchProcessor.process_directory (maxThreads : Nat) (env : BatchEnv)
    (recursive : Bool) : Except ImageToolError Nat :=
  if 0 < maxThreads ∧ env.threadPoolOk = false then
    .error (.processingError ("Failed to create thread pool: " ++ env.threadPoolErr))
  else
    let imagePaths := collect_image_paths env.entries recursive
    if imagePaths.isEmpty then .ok 0
    else if env.createDirOk = false then .error (.ioError env.createDirErr)
    else .ok ((imagePaths.map (fun p =>
        match BatchProcessor.process_single_image env p with
        | .ok n => n
        | .error _ => 0)).sum)

/-- The `(path, error)` pairs handed to `log::warn` by the
`unwrap_or_else` handler during the mapping step of `process_directory` —
the only record the source keeps of per-file failures. -/
def BatchProcessor.loggedFailures (env : BatchEnv) (recursive : Bool) :
    List (String × ImageToolError) :=
  (collect_image_paths env.entries recursive).filterMap (fun p =>
    match BatchProcessor.process_single_image env p with
    | .ok _ => none
    | .error e => some (p, e))

/-- Directory facts consulted by `BatchProcessor::validate_paths`
(`batch.rs`). -/
structure PathsEnv where
  inputExists : Bool
  inputIsDir : Bool
  outputExists : Bool
  outputIsDir : Bool
deriving DecidableEq, Repr

/-- `BatchProcessor::validate_paths` from `batch.rs`: input must exist and
be a directory; an existing output must be a directory. -/
def BatchProcessor.validate_paths (penv : PathsEnv) (inputDir outputDir : String) :
    Except ImageToolError Unit :=
  if penv.inputExists = false then
    .error (.invalidParameter ("Input directory does not exist: " ++ inputDir))
  else if penv.inputIsDir = false then
    .error (.invalidParameter ("Input path is not a directory: " ++ inputDir))
  else if penv.outputExists = true ∧ penv.outputIsDir = false then
    .error (.invalidParameter ("Output path exists but is not a directory: " ++ outputDir))
  else .ok ()

/-- The batch run as `main.rs` drives it: `validate_paths`, then
`process_directory`. -/
def batchRun (maxThreads : Nat) (penv : PathsEnv) (env : BatchEnv)
    (inputDir outputDir : String) (recursive : Bool) : Except ImageToolError Nat :=
  match BatchProcessor.validate_paths penv inputDir outputDir with
  | .error e => .error e
  | .ok _ => BatchProcessor.process_directory maxThreads env recursive

/-- True when an `Except`-valued run aborted with an error. -/
def exceptIsError {ε α : Type} (r : Except ε α) : Bool :=
  match r with
  | .error _ => true
  | .ok _ => false

/-- Modelled from the spec: `ProcessConfig::validate` is called throughout
`main.rs` (`config.validate()?`) but is absent from the sources. Per §4.1
it rejects a quality outside `[1,100]` (rather than silently clamping),
and — with `resizeRequested` indicating a resize-bearing command path —
both width and height zero with scale zero; the dimension checks are the
source's `validate_dimensions` (`utils/mod.rs`), whose 100000 bound
applies on every path. -/
def ProcessConfig.validate (c : ProcessConfig) (resizeRequested : Bool) :
    Except ImageToolError Unit :=
  if c.quality < 1 ∨ 100 < c.quality then
    .error (.invalidParameter ("Quality must be between 1 and 100"))
  else if resizeRequested = true ∧ c.scale = 0 then
    validate_dimensions c.width c.height
  else if 100000 < c.width ∨ 100000 < c.height then
    .error (.invalidParameter ("Dimensions too large (max 100,000 pixels)"))
  else .ok ()

/-- Extension acceptance of the discovery filter (`batch.rs`): present and,
lower-cased, in the supported set. -/
def extIsSupported (x : Option String) : Bool :=
  match x with
  | some s => image_extensions.contains (lowercaseStr s)
  | none => false

/-- A batch run over three well-formed JPEG files of which exactly one,
`in/b.jpg`, fails to process (its decode fails). -/
def c1Env : BatchEnv :=
  { threadPoolOk := true, threadPoolErr := "",
    entries :=
      [.ok { path := "in/a.jpg", depth := 1, isFile := true, ext := some ("jpg") },
       .ok { path := "in/b.jpg", depth := 1, isFile := true, ext := some ("jpg") },
       .ok { path := "in/c.jpg", depth := 1, isFile := true, ext := some ("jpg") }],
    createDirOk := true, createDirErr := "",
    fileName := fun p => some p,
    fileOutcome := fun p =>
      if p = "in/b.jpg" then
        .error (.processingError ("Failed to decode image: corrupt"))
      else .ok () }

/-- A batch run whose directories are valid, whose output directory is
creatable, and whose single file processes fine — but whose global rayon
pool fails to build. -/
def c6Env : BatchEnv :=
  { threadPoolOk := false, threadPoolErr := "The global thread pool has already been initialized.",
    entries := [.ok { path := "in/a.jpg", depth := 1, isFile := true, ext := some ("jpg") }],
    createDirOk := true, createDirErr := "",
    fileName := fun p => some p,
    fileOutcome := fun _ => .ok () }

/-- Valid input and output directories. -/
def c6Penv : PathsEnv :=
  { inputExists := true, inputIsDir := true, outputExists := true, outputIsDir := true }

/-- A directory holding two supported files (`in/a.jpg` and, upper-case
extension, `in/c.PNG`), an unsupported file `in/b.txt`, a subdirectory, a
traversal error, and a depth-2 supported file; every collected file
processes fine. -/
def c7Env : BatchEnv :=
  { threadPoolOk := true, threadPoolErr := "",
    entries :=
      [.ok { path := "in", depth := 0, isFile := false, ext := none },
       .ok { path := "in/a.jpg", depth := 1, isFile := true, ext := some ("jpg") },
       .ok { path := "in/b.txt", depth := 1, isFile := true, ext := some ("txt") },
       .ok { path := "in/c.PNG", depth := 1, isFile := true, ext := some ("PNG") },
       .ok { path := "in/sub", depth := 1, isFile := false, ext := none },
       .error "permission denied",
       .ok { path := "in/sub/d.jpg", depth := 2, isFile := true, ext := some ("jpg") }],
    createDirOk := true, createDirErr := "",
    fileName := fun p => some p,
    fileOutcome := fun _ => .ok () }

/-- C2: the claim says `calculate_savings(1000, 1200)` returns 0 (clamped
to `[0,100]`); evaluating the source's arithmetic at that failing input —
in release-mode wrapping semantics for the `u64` subtraction performed
before the float cast — the result exceeds 100, hence is not the claimed
0, and the `.max(0.0)` clamp never restores 0 (a debug build panics on
the overflow instead). -/
theorem c2_calculate_savings_eval_at_failing_input :
    (ImageCompressor.new 85).calculate_savings 1000 1200 > 100 := by
  norm_num [ImageCompressor.calculate_savings, ImageCompressor.new, u64Sub]

/-- C8: for a readable source, `read_metadata` raises the metadata-read
failure (`ProcessingError`, the spec's `MetadataReadError`) exactly when
the EXIF container is malformed; mere absence of metadata yields
`Ok(None)` and found metadata yields `Ok(Some(exif))` — never an error.
The embedding is a pure function of the read outcome, so reading mutates
nothing. -/
theorem c8_read_metadata_error_only_on_malformed :
    (∀ (ε : Type) (env : MetadataEnv ε),
      isExifReadError (MetadataStripper.read_metadata env) =
        (!(exceptIsError env.openResult) && env.outcome.isMalformed)) ∧
    (∀ (ε : Type), MetadataStripper.read_metadata
      ({ openResult := .ok (), outcome := .notFound } : MetadataEnv ε) = .ok none) ∧
    (∀ (ε : Type) (d : ε), MetadataStripper.read_metadata
      ({ openResult := .ok (), outcome := .found d } : MetadataEnv ε) = .ok (some d)) := by
  refine ⟨fun ε env => ?_, fun ε => rfl, fun ε d => rfl⟩
  rcases env with ⟨openR, o⟩
  cases openR <;> cases o <;> rfl

/-- C9: `load` rejects a non-existent source with the distinguished
does-not-exist error (`InvalidParameter "File does not exist: …"`, the
spec's `NotFound`), rejects undecodable bytes with the distinguished
decode error (`ProcessingError "Failed to decode image: …"`, the spec's
`DecodeError`), and on success returns the decoded raster. -/
theorem c9_load_error_kinds :
    (∀ (α : Type) (openR : Except String Unit) (decodeR : Except String (Raster α))
        (path : String),
      ImageLoader.load { pathExists := false, openResult := openR, decodeResult := decodeR } path =
        .error (.invalidParameter ("File does not exist: " ++ path))) ∧
    (∀ (α : Type) (e path : String),
      ImageLoader.load ({ pathExists := true, openResult := .ok (), decodeResult := .error e } :
          LoadEnv α) path =
        .error (.processingError ("Failed to decode image: " ++ e))) ∧
    (∀ (α : Type) (img : Raster α) (path : String),
      ImageLoader.load { pathExists := true, openResult := .ok (), decodeResult := .ok img } path =
        .ok img) :=
  ⟨fun _ _ _ _ => rfl, fun _ _ _ => rfl, fun _ _ _ => rfl⟩

/-- C10: metadata stripping is a total no-op at the public interface —
`strip_metadata` returns the image unchanged with success,
`strip_metadata_from_bytes` returns its input bytes verbatim, and turning
the `strip_metadata` flag on changes nothing about a pipeline run. -/
theorem c10_strip_metadata_total_noop :
    (∀ (α : Type) (img : Raster α), MetadataStripper.strip_metadata img = .ok img) ∧
    (∀ data : List Nat, MetadataStripper.strip_metadata_from_bytes data = .ok data) ∧
    (∀ (α : Type) (config : ProcessConfig) (env : ProcessEnv α) (path : String),
      ImageProcessor.process { config with strip_metadata := true } env path =
        ImageProcessor.process { config with strip_metadata := false } env path) :=
  ⟨fun _ _ => rfl, fun _ => rfl, fun _ _ _ _ => rfl⟩

/-- C1: evaluating `process_directory` on a three-file run where exactly
`in/b.jpg` fails: the run returns success with a count of `N-1 = 2`, but
the result is a bare count — the failure is only handed to the log (the
one record the source keeps), and no errors sequence, file context, or
size sums are returned to the caller. -/
theorem c1_process_directory_drops_per_file_error :
    BatchProcessor.process_directory 0 c1Env false = .ok 2 ∧
    BatchProcessor.loggedFailures c1Env false =
      [("in/b.jpg", .processingError ("Failed to decode image: corrupt"))] := by
  constructor <;> rfl

/-- C6 counterexample: a run whose input and output directories are valid
and whose output directory is creatable, with every per-file operation
succeeding, still aborts — the rayon global-pool build failure (here with
a nonzero configured thread count) is an abort cause the claim does not
allow. -/
theorem c6_counterexample_threadpool_abort :
    BatchProcessor.validate_paths c6Penv ("in") ("out") = .ok () ∧
    c6Env.createDirOk = true ∧
    (∀ p, c6Env.fileOutcome p = .ok ()) ∧
    batchRun 4 c6Penv c6Env ("in") ("out") false =
      .error (.processingError
        ("Failed to create thread pool: The global thread pool has already been initialized.")) :=
  ⟨rfl, rfl, fun _ => rfl, rfl⟩

/-- C4: resizing is the identity on dimensions when the target equals the
source — `Scale(1.0)` and `Absolute(src_w, src_h)` on a raster with
positive dimensions yield the raster itself, and in general whenever the
computed target dimensions equal the (positive) source dimensions the
resizer returns the raster unchanged, performing no resample. -/
theorem c4_resize_identity (α : Type) (resample : ResizeAlgorithm → Nat → Nat → α → α)
    (alg : ResizeAlgorithm) (ka : Bool) (sw sh : Nat) (p : α) :
    (ImageResizer.resize resample alg ka { width := sw + 1, height := sh + 1, pixels := p }
        (.Scale 1) = .ok { width := sw + 1, height := sh + 1, pixels := p }) ∧
    (ImageResizer.resize resample alg ka { width := sw + 1, height := sh + 1, pixels := p }
        (.Absolute (sw + 1) (sh + 1)) = .ok { width := sw + 1, height := sh + 1, pixels := p }) ∧
    (∀ (r : Raster α) (mode : ResizeMode),
      compute_target_dimensions r.width r.height mode ka = (r.width, r.height) →
      0 < r.width → 0 < r.height →
      ImageResizer.resize resample alg ka r mode = .ok r) := by
  have hgen : ∀ (r : Raster α) (mode : ResizeMode),
      compute_target_dimensions r.width r.height mode ka = (r.width, r.height) →
      0 < r.width → 0 < r.height →
      ImageResizer.resize resample alg ka r mode = .ok r := by
    intro r mode h hw hh
    unfold ImageResizer.resize
    rw [h]
    simp [Nat.pos_iff_ne_zero.mp hw, Nat.pos_iff_ne_zero.mp hh]
  have hsw : ((sw : ℚ) + 1) ≠ 0 := by positivity
  have hsh : ((sh : ℚ) + 1) ≠ 0 := by positivity
  have hscale : compute_target_dimensions (sw + 1) (sh + 1) (.Scale 1) ka = (sw + 1, sh + 1) := by
    simp [compute_target_dimensions, roundNat, round_natCast, Int.toNat_natCast]
  have habs : compute_target_dimensions (sw + 1) (sh + 1) (.Absolute (sw + 1) (sh + 1)) ka =
      (sw + 1, sh + 1) := by
    cases ka with
    | false => rfl
    | true =>
      simp [compute_target_dimensions, roundNat, div_self hsw, div_self hsh,
        round_add_one, round_natCast, Int.toNat_natCast_add_one]
  exact ⟨hgen _ _ hscale (Nat.succ_pos _) (Nat.succ_pos _),
    hgen _ _ habs (Nat.succ_pos _) (Nat.succ_pos _), hgen⟩

/-- C4 witness: the identity behavior at concrete rasters — `Scale(1.0)`
on a 400×300 raster and `Absolute(640,480)` on a 640×480 raster both
return the raster unchanged. -/
theorem c4_resize_identity_witness :
    ImageResizer.resize (fun _ _ _ (px : Unit) => px) .lanczos3 true
      { width := 400, height := 300, pixels := () } (.Scale 1) =
      .ok { width := 400, height := 300, pixels := () } ∧
    ImageResizer.resize (fun _ _ _ (px : Unit) => px) .bilinear false
      { width := 640, height := 480, pixels := () } (.Absolute 640 480) =
      .ok { width := 640, height := 480, pixels := () } :=
  ⟨(c4_resize_identity Unit (fun _ _ _ px => px) .lanczos3 true 399 299 ()).1,
   (c4_resize_identity Unit (fun _ _ _ px => px) .bilinear false 639 479 ()).2.2
     { width := 640, height := 480, pixels := () } (.Absolute 640 480)
     (by rfl) (by decide) (by decide)⟩

/-- C5: the target-geometry rules — with `keep_aspect` and one dimension
given, the other is derived as `round(src_dimension * (given/src_given))`
(in particular `Absolute(200,0)` on a 400×300 source gives 200×150); with
both given, both dimensions scale by `min(w/src_w, h/src_h)` (fit-inside);
without `keep_aspect` the result is exactly `(w, h)`. -/
theorem c5_compute_target_dimensions_spec :
    (∀ sw sh w : Nat, compute_target_dimensions (sw + 1) (sh + 1) (.Absolute (w + 1) 0) true =
      (w + 1, roundNat (((sh + 1 : Nat) : ℚ) * (((w + 1 : Nat) : ℚ) / ((sw + 1 : Nat) : ℚ))))) ∧
    (∀ sw sh h : Nat, compute_target_dimensions (sw + 1) (sh + 1) (.Absolute 0 (h + 1)) true =
      (roundNat (((sw + 1 : Nat) : ℚ) * (((h + 1 : Nat) : ℚ) / ((sh + 1 : Nat) : ℚ))), h + 1)) ∧
    (∀ sw sh w h : Nat,
      compute_target_dimensions (sw + 1) (sh + 1) (.Absolute (w + 1) (h + 1)) true =
        (roundNat (((sw + 1 : Nat) : ℚ) *
            min (((w + 1 : Nat) : ℚ) / ((sw + 1 : Nat) : ℚ))
              (((h + 1 : Nat) : ℚ) / ((sh + 1 : Nat) : ℚ))),
         roundNat (((sh + 1 : Nat) : ℚ) *
            min (((w + 1 : Nat) : ℚ) / ((sw + 1 : Nat) : ℚ))
              (((h + 1 : Nat) : ℚ) / ((sh + 1 : Nat) : ℚ))))) ∧
    (∀ srcW srcH w h : Nat, compute_target_dimensions srcW srcH (.Absolute w h) false = (w, h)) ∧
    compute_target_dimensions 400 300 (.Absolute 200 0) true = (200, 150) := by
  refine ⟨fun sw sh w => ?_, fun sw sh h => ?_, fun sw sh w h => ?_, fun srcW srcH w h => ?_, ?_⟩
  · simp [compute_target_dimensions]
  · simp [compute_target_dimensions]
  · simp [compute_target_dimensions]
  · simp [compute_target_dimensions]
  · norm_num [compute_target_dimensions, roundNat, round_eq]
    decide

/-- C6 (amended): the composite batch run (`validate_paths` then
`process_directory`) aborts exactly for: an invalid input or output
directory, a global thread-pool build failure under a nonzero configured
thread count, or — once discovery found at least one file — failure to
create the output directory tree. The right-hand side never consults the
per-file outcomes: per-file errors are isolated and never abort the run. -/
theorem c6_amended_abort_causes (mt : Nat) (penv : PathsEnv) (env : BatchEnv)
    (i o : String) (rec : Bool) :
    exceptIsError (batchRun mt penv env i o rec) =
      (!penv.inputExists || !penv.inputIsDir || (penv.outputExists && !penv.outputIsDir) ||
       (!(mt == 0) && !env.threadPoolOk) ||
       (!(collect_image_paths env.entries rec).isEmpty && !env.createDirOk)) := by
  rcases penv with ⟨ie, iid, oe, oid⟩
  rcases env with ⟨tp, tpe, ents, cd, cde, fn, fo⟩
  rcases Nat.eq_zero_or_pos mt with hmt | hmt
  all_goals cases ie <;> cases iid <;> cases oe <;> cases oid <;> cases tp <;> cases cd <;>
    cases hemp : (collect_image_paths ents rec).isEmpty <;>
    simp_all [batchRun, BatchProcessor.validate_paths, BatchProcessor.process_directory,
      exceptIsError, Nat.pos_iff_ne_zero]

/-- C3: the spec-modelled `Config::validate` accepts exactly when quality
is in `[1,100]`, width and height are each at most 100000, and — when a
resize is requested — at least one of width, height, scale is nonzero;
and an out-of-range quality is rejected with a validation error (in
contrast to the silent clamp in `ImageCompressor::new`). -/
theorem c3_validate_spec (c : ProcessConfig) (rr : Bool) :
    (c.validate rr = .ok () ↔
      1 ≤ c.quality ∧ c.quality ≤ 100 ∧ c.width ≤ 100000 ∧ c.height ≤ 100000 ∧
        (rr = true → (c.width ≠ 0 ∨ c.height ≠ 0 ∨ c.scale ≠ 0))) ∧
    (c.quality < 1 ∨ 100 < c.quality →
      c.validate rr = .error (.invalidParameter ("Quality must be between 1 and 100"))) := by
  constructor
  · unfold ProcessConfig.validate validate_dimensions
    split_ifs with h1 h2 h3 h4 h5 <;>
      simp_all <;> omega
  · intro h
    unfold ProcessConfig.validate
    rw [if_pos h]

/-- C3 witness: quality 150 is rejected with the validation error while
the same config with the default quality 85 is accepted. -/
theorem c3_validate_spec_witness :
    ProcessConfig.validate
      { ProcessConfig.default with width := 800, quality := 150 } true =
      .error (.invalidParameter ("Quality must be between 1 and 100")) ∧
    ProcessConfig.validate
      { ProcessConfig.default with width := 800 } true = .ok () :=
  ⟨(c3_validate_spec { ProcessConfig.default with width := 800, quality := 150 } true).2
      (Or.inr (by decide)),
   (c3_validate_spec { ProcessConfig.default with width := 800 } true).1.mpr
      ⟨by decide, by decide, by decide, by decide, fun _ => Or.inl (by decide)⟩⟩

/-- Membership through the `filter_map(entry.ok())` step of discovery. -/
theorem mem_filterMap_exceptOk (l : List (Except String DirEntry)) (e : DirEntry) :
    e ∈ l.filterMap (fun it =>
      match it with
      | .ok d => some d
      | .error _ => none) ↔ Except.ok e ∈ l := by
  induction l with
  | nil => simp
  | cons a t ih =>
    cases a <;> simp [List.filterMap_cons, ih]

/-- The discovery predicate splits into its file-type and extension
conjuncts. -/
theorem entryIsSupportedImage_eq (e : DirEntry) :
    entryIsSupportedImage e = (e.isFile && extIsSupported e.ext) := by
  cases h : e.ext <;> simp [entryIsSupportedImage, extIsSupported, h]

/-- C7: discovery selects exactly the regular files whose lower-cased
extension is in the supported set — all depths when recursive, depth ≤ 1
when not; per-file failures recorded by the run originate only from
collected paths, so unsupported files never appear among the errors; a
run over a discovery result in which every file processes succeeds with
exactly the discovered count; and an empty discovery result is no error —
the run returns success with zero processed files. -/
theorem c7_discovery_and_isolation :
    (∀ (entries : List (Except String DirEntry)) (p : String),
      p ∈ collect_image_paths entries true ↔
        ∃ e : DirEntry, Except.ok e ∈ entries ∧ e.isFile = true ∧
          extIsSupported e.ext = true ∧ e.path = p) ∧
    (∀ (entries : List (Except String DirEntry)) (p : String),
      p ∈ collect_image_paths entries false ↔
        ∃ e : DirEntry, Except.ok e ∈ entries ∧ e.depth ≤ 1 ∧ e.isFile = true ∧
          extIsSupported e.ext = true ∧ e.path = p) ∧
    (∀ (env : BatchEnv) (rec : Bool) (p : String) (err : ImageToolError),
      (p, err) ∈ BatchProcessor.loggedFailures env rec →
        p ∈ collect_image_paths env.entries rec) ∧
    (∀ (env : BatchEnv) (rec : Bool),
      env.createDirOk = true →
      (∀ p ∈ collect_image_paths env.entries rec,
        BatchProcessor.process_single_image env p = .ok 1) →
      BatchProcessor.process_directory 0 env rec =
        .ok (collect_image_paths env.entries rec).length) ∧
    (∀ (env : BatchEnv) (rec : Bool),
      collect_image_paths env.entries rec = [] →
      BatchProcessor.process_directory 0 env rec = .ok 0) := by
  refine ⟨fun entries p => ?_, fun entries p => ?_, fun env rec p err hmem => ?_,
    fun env rec hcd hall => ?_, fun env rec hnil => ?_⟩
  · simp only [collect_image_paths, if_pos rfl, List.mem_map, List.mem_filter,
      mem_filterMap_exceptOk, entryIsSupportedImage_eq, Bool.and_eq_true]
    constructor
    · rintro ⟨e, ⟨⟨hmem, hf, hs⟩, rfl⟩⟩
      exact ⟨e, hmem, hf, hs, rfl⟩
    · rintro ⟨e, hmem, hf, hs, rfl⟩
      exact ⟨e, ⟨⟨hmem, hf, hs⟩, rfl⟩⟩
  · simp only [collect_image_paths, Bool.false_eq_true, if_false, List.mem_map,
      List.mem_filter, mem_filterMap_exceptOk, List.mem_filter,
      entryIsSupportedImage_eq, Bool.and_eq_true]
    constructor
    · rintro ⟨e, ⟨⟨hmem, hd⟩, hf, hs⟩, rfl⟩
      exact ⟨e, hmem, by simpa using hd, hf, hs, rfl⟩
    · rintro ⟨e, hmem, hd, hf, hs, rfl⟩
      exact ⟨e, ⟨⟨hmem, by simpa using hd⟩, hf, hs⟩, rfl⟩
  · unfold BatchProcessor.loggedFailures at hmem
    rcases List.mem_filterMap.mp hmem with ⟨q, hq, hsome⟩
    rcases hmatch : BatchProcessor.process_single_image env q with e2 | n
    · rw [hmatch] at hsome
      have hsome2 : some (q, e2) = some (p, err) := hsome
      have hqp : q = p := congrArg Prod.fst (Option.some.inj hsome2)
      exact hqp ▸ hq
    · rw [hmatch] at hsome
      exact Option.noConfusion
        (show (none : Option (String × ImageToolError)) = some (p, err) from hsome)
  · have hsum : ∀ (l : List String),
        (∀ p ∈ l, BatchProcessor.process_single_image env p = .ok 1) →
        (l.map fun p =>
          match BatchProcessor.process_single_image env p with
          | .ok n => n
          | .error _ => 0).sum = l.length := by
      intro l hl
      induction l with
      | nil => rfl
      | cons a t ih =>
        simp only [List.map_cons, List.sum_cons, hl a (List.mem_cons_self a t),
          List.length_cons, ih (fun p hp => hl p (List.mem_cons_of_mem a hp))]
        omega
    unfold BatchProcessor.process_directory
    by_cases hemp : (collect_image_paths env.entries rec).isEmpty
    · have : collect_image_paths env.entries rec = [] := by
        simpa [List.isEmpty_iff] using hemp
      simp [hemp, this]
    · simp [hemp, hcd, hsum _ hall]
  · unfold BatchProcessor.process_directory
    simp [hnil]

/-- C7 witness: on the concrete directory `c7Env` — two supported files
(one with an upper-case extension), an unsupported file, a subdirectory,
a traversal error, and a depth-2 file — the non-recursive run processes
exactly the two supported files, the unsupported file appears in no
failure record, and the empty-directory run returns zero successfully. -/
theorem c7_discovery_and_isolation_witness :
    BatchProcessor.process_directory 0 c7Env false = .ok 2 ∧
    (∀ err, ("in/b.txt", err) ∈ BatchProcessor.loggedFailures c7Env false → False) ∧
    BatchProcessor.process_directory 0 { c7Env with entries := [] } false = .ok 0 := by
  have hc : collect_image_paths c7Env.entries false = ["in/a.jpg", "in/c.PNG"] := rfl
  refine ⟨?_, ?_, ?_⟩
  · have h := (c7_discovery_and_isolation).2.2.2.1 c7Env false rfl ?_
    · rw [hc] at h
      exact h
    · rw [hc]
      intro p hp
      fin_cases hp <;> rfl
  · intro err hmem
    have h := (c7_discovery_and_isolation).2.2.1 c7Env false ("in/b.txt") err hmem
    rw [hc] at h
    exact absurd h (by decide)
  · exact (c7_discovery_and_isolation).2.2.2.2 { c7Env with entries := [] } false rfl

end Pixie
